import Mathlib

/-!
Verification of the DocSense document-processing pipelines
(`backend/utils/cleaner.py`, `backend/processors/{summarizer,classifier,
extractor,json_convertor}.py`) against their specification.

Python strings are embedded as `List Char`; Python `int` indices that can
become negative (slice bounds, `str.rfind` results) are embedded as `Int`.
The completion service (`llm.invoke`) is an external collaborator and is
embedded as an oracle giving the response text of the i-th call; `json.loads`
and `json.dumps` are external stdlib collaborators and are parameters.
The unbounded `while` loop of `chunk_text` is embedded with an explicit fuel
argument (`none` = fuel exhausted); all other loops are structural.
-/

/-- Whitespace as matched by Python's `str.strip()` and the regex `\s`
(ASCII whitespace, the C1 control spaces, and the Unicode space characters). -/
def pyIsSpace (c : Char) : Bool :=
  c = ' ' || c = '\t' || c = '\n' || c = '\r' || c.toNat = 11 || c.toNat = 12 ||
  (28 ≤ c.toNat && c.toNat ≤ 31) || c.toNat = 133 || c.toNat = 160 ||
  c.toNat = 5760 || (8192 ≤ c.toNat && c.toNat ≤ 8202) || c.toNat = 8232 ||
  c.toNat = 8233 || c.toNat = 8239 || c.toNat = 8287 || c.toNat = 12288

/-- Python `str.lower()` (ASCII letters; Python also lowers non-ASCII letters,
which never affects the ASCII search patterns used by this program). -/
def pyLower (l : List Char) : List Char :=
  l.map Char.toLower

/-- Python `str.strip()` with no argument: drop whitespace from both ends. -/
def pyStrip (l : List Char) : List Char :=
  ((l.dropWhile pyIsSpace).reverse.dropWhile pyIsSpace).reverse

/-- Does `p` occur at the very start of `l`? -/
def startsWith? : List Char → List Char → Bool
  | [], _ => true
  | _ :: _, [] => false
  | p :: ps, c :: cs => p = c && startsWith? ps cs

/-- Python `pat in s` substring test. -/
def isSubstr (pat l : List Char) : Bool :=
  l.tails.any (fun t => startsWith? pat t)

/-- Python `str.split()` with no argument: maximal non-whitespace runs,
empty tokens dropped.  `cur` is the (reversed) token being accumulated. -/
def pySplitWsAux : List Char → List Char → List (List Char)
  | [], cur => if cur.isEmpty then [] else [cur.reverse]
  | c :: cs, cur =>
    if pyIsSpace c then
      if cur.isEmpty then pySplitWsAux cs [] else cur.reverse :: pySplitWsAux cs []
    else pySplitWsAux cs (c :: cur)

/-- Python `str.split()` with no argument. -/
def pySplitWs (l : List Char) : List (List Char) :=
  pySplitWsAux l []

/-- Python `str.split(sep)` for a one-character separator (keeps empty parts). -/
def pySplitOnAux (sep : Char) : List Char → List Char → List (List Char)
  | [], cur => [cur.reverse]
  | c :: cs, cur =>
    if c = sep then cur.reverse :: pySplitOnAux sep cs []
    else pySplitOnAux sep cs (c :: cur)

/-- Python `str.split(sep)` for a one-character separator. -/
def pySplitOn (sep : Char) (l : List Char) : List (List Char) :=
  pySplitOnAux sep l []

/-- Python `str.strip(chars)`: drop characters of `set` from both ends. -/
def pyStripChars (set : List Char) (l : List Char) : List Char :=
  ((l.dropWhile (fun c => set.contains c)).reverse.dropWhile
    (fun c => set.contains c)).reverse

/-- Clamp a Python slice index to `[0, n]`, resolving negative indices
relative to the end of the string. -/
def clampIdx (n : Nat) (i : Int) : Nat :=
  (min (max (if i < 0 then i + n else i) 0) (n : Int)).toNat

/-- Python slice `s[a:b]` for `int` (possibly negative) bounds. -/
def pyslice (s : List Char) (a b : Int) : List Char :=
  ((s.drop (clampIdx s.length a)).take (clampIdx s.length b - clampIdx s.length a))

/-- Python `s.rfind(c)` for a single character: highest index, or `-1`. -/
def rfindI (s : List Char) (c : Char) : Int :=
  match s.reverse.findIdx? (fun x => x = c) with
  | some k => (s.length : Int) - 1 - k
  | none => -1

/-! ## cleaner.py : clean_text -/

/-- Scanner for `re.sub(r'\s+', ' ', text)`: each maximal whitespace run is
replaced by one space.  `inRun` records whether the previous character was
part of a whitespace run already replaced. -/
def wsToSpaceGo : Bool → List Char → List Char
  | _, [] => []
  | inRun, c :: cs =>
    if pyIsSpace c then
      if inRun then wsToSpaceGo true cs else ' ' :: wsToSpaceGo true cs
    else c :: wsToSpaceGo false cs

/-- The substitution `re.sub(r'\s+', ' ', text)` from `clean_text`. -/
def wsToSpace (l : List Char) : List Char :=
  wsToSpaceGo false l

/-- Replacement emitted for a pending run of `k` newlines under
`re.sub(r'\n{3,}', '\n\n', text)`. -/
def emitNl (k : Nat) : List Char :=
  if 3 ≤ k then ['\n', '\n'] else List.replicate k '\n'

/-- Scanner for `re.sub(r'\n{3,}', '\n\n', text)`; `k` counts the pending
newline run. -/
def collapseNlGo : Nat → List Char → List Char
  | k, [] => emitNl k
  | k, c :: cs =>
    if c = '\n' then collapseNlGo (k + 1) cs
    else emitNl k ++ c :: collapseNlGo 0 cs

/-- The substitution `re.sub(r'\n{3,}', '\n\n', text)`. -/
def collapseNl (l : List Char) : List Char :=
  collapseNlGo 0 l

/-- `clean_text` from `backend/utils/cleaner.py`: collapse whitespace runs,
collapse 3+ newlines to 2, strip the edges. -/
def clean_text (text : List Char) : List Char :=
  pyStrip (collapseNl (wsToSpace text))

/-! ## cleaner.py : strip_markdown

Each `re.sub` line of `strip_markdown` is embedded as a left-to-right
scanner.  The scanners take a fuel argument (they may jump over a matched
span); fuel equal to the length of the input always suffices, since every
step consumes at least one character.  On fuel 0 the rest is returned
unchanged (never reached at the fuel used by `strip_markdown`). -/

/-- Scanner for `re.sub(r'\*\*([^*]+)\*\*', r'\1', text)` and its `__`
analogue: `m` is the marker character. -/
def subEmph2 (m : Char) : Nat → List Char → List Char
  | 0, l => l
  | _ + 1, [] => []
  | f + 1, c1 :: rest1 =>
    match rest1 with
    | [] => [c1]
    | c2 :: rest =>
      if c1 = m && c2 = m then
        let run := rest.takeWhile (fun c => c ≠ m)
        let rem := rest.dropWhile (fun c => c ≠ m)
        if !run.isEmpty && startsWith? [m, m] rem then
          run ++ subEmph2 m f (rem.drop 2)
        else c1 :: subEmph2 m f (c2 :: rest)
      else c1 :: subEmph2 m f (c2 :: rest)

/-- Scanner for `re.sub(r'\*([^*]+)\*', r'\1', text)` and its `_` analogue. -/
def subEmph1 (m : Char) : Nat → List Char → List Char
  | 0, l => l
  | _ + 1, [] => []
  | f + 1, c :: rest =>
    if c = m then
      let run := rest.takeWhile (fun x => x ≠ m)
      let rem := rest.dropWhile (fun x => x ≠ m)
      if !run.isEmpty && startsWith? [m] rem then
        run ++ subEmph1 m f (rem.drop 1)
      else c :: subEmph1 m f rest
    else c :: subEmph1 m f rest

/-- Did a nonempty whitespace run end with a newline?  Used to decide whether
the position after a multiline match is a line start. -/
def endsNl (l : List Char) : Bool :=
  l.getLast? = some '\n'

/-- Scanner for `re.sub(r'^#+\s+', '', text, flags=re.MULTILINE)`.
`atLS` is true when the current position is a line start. -/
def subHeaderGo : Nat → Bool → List Char → List Char
  | 0, _, l => l
  | _ + 1, _, [] => []
  | f + 1, atLS, c :: cs =>
    if atLS && c = '#' then
      let afterH := cs.dropWhile (fun x => x = '#')
      let ws := afterH.takeWhile pyIsSpace
      if !ws.isEmpty then
        subHeaderGo f (endsNl ws) (afterH.dropWhile pyIsSpace)
      else c :: subHeaderGo f false cs
    else c :: subHeaderGo f (decide (c = '\n')) cs

/-- The substitution `re.sub(r'^#+\s+', '', text, flags=re.MULTILINE)`. -/
def subHeader (l : List Char) : List Char :=
  subHeaderGo l.length true l

/-- Scanner for `re.sub(r'^\s*[-*+]\s+', '', text, flags=re.MULTILINE)`. -/
def subListGo : Nat → Bool → List Char → List Char
  | 0, _, l => l
  | _ + 1, _, [] => []
  | f + 1, atLS, c :: cs =>
    if atLS then
      match (c :: cs).dropWhile pyIsSpace with
      | m :: r2 =>
        if m = '-' || m = '*' || m = '+' then
          let ws2 := r2.takeWhile pyIsSpace
          if !ws2.isEmpty then
            subListGo f (endsNl ws2) (r2.dropWhile pyIsSpace)
          else c :: subListGo f (decide (c = '\n')) cs
        else c :: subListGo f (decide (c = '\n')) cs
      | [] => c :: subListGo f (decide (c = '\n')) cs
    else c :: subListGo f (decide (c = '\n')) cs

/-- The substitution `re.sub(r'^\s*[-*+]\s+', '', text, flags=re.MULTILINE)`. -/
def subList (l : List Char) : List Char :=
  subListGo l.length true l

/-- Scanner for `re.sub(r'^\s*\d+\.\s+', '', text, flags=re.MULTILINE)`. -/
def subEnumGo : Nat → Bool → List Char → List Char
  | 0, _, l => l
  | _ + 1, _, [] => []
  | f + 1, atLS, c :: cs =>
    if atLS then
      let r1 := (c :: cs).dropWhile pyIsSpace
      let digits := r1.takeWhile Char.isDigit
      if !digits.isEmpty then
        match r1.dropWhile Char.isDigit with
        | '.' :: r3 =>
          let ws2 := r3.takeWhile pyIsSpace
          if !ws2.isEmpty then
            subEnumGo f (endsNl ws2) (r3.dropWhile pyIsSpace)
          else c :: subEnumGo f (decide (c = '\n')) cs
        | _ => c :: subEnumGo f (decide (c = '\n')) cs
      else c :: subEnumGo f (decide (c = '\n')) cs
    else c :: subEnumGo f (decide (c = '\n')) cs

/-- The substitution `re.sub(r'^\s*\d+\.\s+', '', text, flags=re.MULTILINE)`. -/
def subEnum (l : List Char) : List Char :=
  subEnumGo l.length true l

/-- `strip_markdown` from `backend/utils/cleaner.py`: the seven `re.sub`
lines in source order, then newline collapsing, then `strip()`. -/
def strip_markdown (text : List Char) : List Char :=
  let s1 := subEmph2 '*' text.length text
  let s2 := subEmph1 '*' s1.length s1
  let s3 := subEmph2 '_' s2.length s2
  let s4 := subEmph1 '_' s3.length s3
  let s5 := subHeader s4
  let s6 := subList s5
  let s7 := subEnum s6
  pyStrip (collapseNl s7)

/-! ## cleaner.py : chunk_text

The `while start < len(text)` loop of `chunk_text` is embedded with a fuel
argument because it does not terminate for every parameter combination
(`none` = fuel exhausted).  `start` is an `Int`: `start = end - overlap` can
go negative in Python, where it then indexes from the end of the string, so
slices use the Python semantics of `pyslice`. -/

/-- One iteration of the `chunk_text` loop body up to the `append`: from
`start`, compute the emitted (pre-`strip`) chunk and the new `end`. -/
def chunkStep (text : List Char) (cs : Nat) (start : Int) : List Char × Int :=
  let end0 : Int := start + cs
  let chunk0 := pyslice text start end0
  if end0 < (text.length : Int) then
    let bp : Int := max (rfindI chunk0 '.') (rfindI chunk0 '\n')
    if start + ((cs / 2 : Nat) : Int) < bp then
      (pyslice text start (start + bp + 1), start + bp + 1)
    else (chunk0, end0)
  else (chunk0, end0)

/-- The `while start < len(text)` loop of `chunk_text`. -/
def chunkLoop (text : List Char) (cs ov : Nat) : Nat → Int → Option (List (List Char))
  | 0, start => if start < (text.length : Int) then none else some []
  | fuel + 1, start =>
    if start < (text.length : Int) then
      let st := chunkStep text cs start
      (chunkLoop text cs ov fuel (st.2 - (ov : Int))).map
        (fun rest => pyStrip st.1 :: rest)
    else some []

/-- `chunk_text` from `backend/utils/cleaner.py` (fuel-indexed). -/
def chunk_text (text : List Char) (cs ov : Nat) (fuel : Nat) : Option (List (List Char)) :=
  if text.length ≤ cs then some [text] else chunkLoop text cs ov fuel 0

/-! ## processors/summarizer.py

The completion service is embedded as an oracle `Nat → List Char` giving the
response text of the i-th `llm.invoke` call (0 = initial summary,
1 = consistency check, 2 = the conditional repair call).  Prompt strings are
not observable through the oracle and are not modeled; `calls` counts the
`llm.invoke` calls the run performs. -/

/-- Result of `summarize_document`, plus the number of completion calls. -/
structure SummarizeResult where
  summary : List Char
  word_count : Nat
  sections_verified : Bool
  calls : Nat

/-- `summarize_document` from `backend/processors/summarizer.py`: clean the
document, take the initial summary (call 0) and the consistency check
(call 1); when the consistency response contains "missing" or "not covered"
(lower-cased), issue the repair call (call 2); strip markdown from the
selected summary; `word_count = len(document.split())` on the cleaned text. -/
def summarize_document (oracle : Nat → List Char) (document : List Char) : SummarizeResult :=
  let doc := clean_text document
  let initial_summary := oracle 0
  let consistency := oracle 1
  let repair := isSubstr "missing".toList (pyLower consistency) ||
                isSubstr "not covered".toList (pyLower consistency)
  let final_summary := if repair then oracle 2 else initial_summary
  { summary := strip_markdown final_summary,
    word_count := (pySplitWs doc).length,
    sections_verified := true,
    calls := if repair then 3 else 2 }

/-! ## processors/classifier.py -/

/-- Result of `classify_document`, plus the number of completion calls. -/
structure ClassifyResult where
  category : String
  confidence : String
  indicators : List Char
  document_length : Nat
  calls : Nat

/-- The fixed category enum, in the order scanned by `classify_document`. -/
def categories : List String :=
  ["resume", "invoice", "contract", "research_paper", "report", "letter", "other"]

/-- First-pass category parsing (classifier.py lines 53-67): the
"research paper"/"research_paper" variants first, then the first enum term
found by substring search, else "other". -/
def parseCategory (t : List Char) : String :=
  if isSubstr "research paper".toList t || isSubstr "research_paper".toList t then
    "research_paper"
  else
    match categories.find? (fun cat => isSubstr cat.toList t) with
    | some cat => cat
    | none => "other"

/-- First-pass confidence parsing (classifier.py lines 54, 69-72):
"high" wins over "low", default "medium". -/
def parseConfidence (t : List Char) : String :=
  if isSubstr "high".toList t then "high"
  else if isSubstr "low".toList t then "low"
  else "medium"

/-- Re-evaluation category update (classifier.py lines 103-111): same
variant-first scan, but the previous category is retained when no term
matches (there is no `if not category` reset in this branch). -/
def updateCategory (t : List Char) (prev : String) : String :=
  if isSubstr "research paper".toList t || isSubstr "research_paper".toList t then
    "research_paper"
  else
    match categories.find? (fun cat => isSubstr cat.toList t) with
    | some cat => cat
    | none => prev

/-- Re-evaluation confidence update (classifier.py lines 113-117): the
previous confidence is retained when neither "high" nor "low" occurs. -/
def updateConfidence (t : List Char) (prev : String) : String :=
  if isSubstr "high".toList t then "high"
  else if isSubstr "low".toList t then "low"
  else prev

/-- `classify_document` from `backend/processors/classifier.py`.  Call 0 is
the initial classification; when its confidence is low or medium, call 1 is
the re-evaluation; the last call fetches the indicators, which are
markdown-stripped. -/
def classify_document (oracle : Nat → List Char) (document : List Char) : ClassifyResult :=
  let t0 := pyLower (oracle 0)
  let category := parseCategory t0
  let confidence := parseConfidence t0
  if confidence = "low" ∨ confidence = "medium" then
    let t1 := pyLower (oracle 1)
    { category := updateCategory t1 category,
      confidence := updateConfidence t1 confidence,
      indicators := strip_markdown (oracle 2),
      document_length := document.length,
      calls := 3 }
  else
    { category := category,
      confidence := confidence,
      indicators := strip_markdown (oracle 1),
      document_length := document.length,
      calls := 2 }

/-! ## processors/json_convertor.py

`json.loads` / `json.dumps` are Python stdlib collaborators and are
parameters (`loads` returning `none` embeds `json.JSONDecodeError`).  JSON
values are embedded by `JVal`; a parsed top-level object is an association
list `JDict`.  The completion service is an oracle `Nat → Except msg text`:
`Except.error` embeds `llm.invoke` raising a generic exception with the
given message. -/

/-- A JSON value as produced by `json.loads`. -/
inductive JVal where
  | str : List Char → JVal
  | num : Int → JVal
  | bool : Bool → JVal
  | null : JVal
  | arr : List JVal → JVal
  | obj : List (String × JVal) → JVal

/-- A parsed top-level JSON object (a Python dict in insertion order). -/
abbrev JDict := List (String × JVal)

/-- Python `key in dict`. -/
def hasKey (r : JDict) (k : String) : Bool :=
  r.any (fun kv => kv.1 = k)

/-- The fallback dict built on the last retry after a JSON parse failure
(json_convertor.py lines 114-118). -/
def parseFallback (document : List Char) : JDict :=
  [("main_content", JVal.str (document.take 1000)),
   ("error", JVal.str "Failed to parse structured JSON".toList),
   ("raw_text", JVal.str (document.take 500))]

/-- The fallback dict built on the last retry after a generic exception
(json_convertor.py lines 124-127). -/
def excFallback (document msg : List Char) : JDict :=
  [("main_content", JVal.str (document.take 1000)),
   ("error", JVal.str ("Conversion failed: ".toList ++ msg))]

/-- The fallback dict built when the loop never set a result
(json_convertor.py lines 130-134). -/
def noneFallback (document : List Char) : JDict :=
  [("main_content", JVal.str (document.take 1000)),
   ("error", JVal.str "Failed to convert document to JSON".toList)]

/-- The backtick character (used by the fenced code-block pattern). -/
def btick : Char := Char.ofNat 96

/-- Does a closing fence follow, as in the regex tail: optional whitespace
then three backticks? -/
def fenceClose (r : List Char) : Bool :=
  startsWith? [btick, btick, btick] (r.dropWhile pyIsSpace)

/-- The lazy body scan of the fenced pattern: after the opening brace, find
the shortest body such that a closing brace followed by a closing fence
follows; `acc` holds the (reversed) body seen so far. -/
def lazyBrace : Nat → List Char → List Char → Option (List Char)
  | _, _, [] => none
  | 0, _, _ => none
  | f + 1, acc, c :: rest =>
    if c = '}' && fenceClose rest then some ('{' :: (acc.reverse ++ ['}']))
    else lazyBrace f (c :: acc) rest

/-- Match the fence-pattern tail (optional whitespace, then a brace group)
at `r`, returning capture group 1. -/
def tryFenceTail (r : List Char) : Option (List Char) :=
  match r.dropWhile pyIsSpace with
  | '{' :: body => lazyBrace body.length [] body
  | _ => none

/-- Try the pattern of three backticks, optional "json" tag, whitespace and
a lazily-matched brace group, anchored at the current position. -/
def tryFenceAt (l : List Char) : Option (List Char) :=
  match l with
  | c1 :: c2 :: c3 :: r =>
    if c1 = btick && c2 = btick && c3 = btick then
      if startsWith? "json".toList r then
        match tryFenceTail (r.drop 4) with
        | some g => some g
        | none => tryFenceTail r
      else tryFenceTail r
    else none
  | _ => none

/-- Leftmost search for the fenced code-block pattern
(json_convertor.py line 58). -/
def fencedSearch : Nat → List Char → Option (List Char)
  | 0, _ => none
  | f + 1, l =>
    match tryFenceAt l with
    | some g => some g
    | none =>
      match l with
      | [] => none
      | _ :: cs => fencedSearch f cs

/-- The greedy whole-object search (json_convertor.py line 63): from the
first opening brace to the last closing brace, when the latter comes
later. -/
def braceSpan (l : List Char) : Option (List Char) :=
  match l.findIdx? (fun c => c = '{') with
  | some i =>
    let j := rfindI l '}'
    if (i : Int) < j then some ((l.drop i).take (j.toNat - i + 1)) else none
  | none => none

/-- The JSON-extraction step of `convert_to_json` (lines 56-65): prefer the
fenced block's group, else the brace span, else the content unchanged. -/
def extractJson (content : List Char) : List Char :=
  match fencedSearch content.length content with
  | some g => g
  | none =>
    match braceSpan content with
    | some s => s
    | none => content

/-- Result of `convert_to_json`. -/
structure ConvertResult where
  json : JDict
  json_string : List Char
  fields_count : Nat
  retries_used : Nat

/-- The `for attempt in range(max_retries)` loop of `convert_to_json`.
`rem` is the number of attempts remaining (`rem = mr - i` on entry), `i` the
current attempt index, `res` the current value of `result`.  Returns the
final `result` and `attempt + 1` after a break (or `mr` after a natural
exit), the value `min(attempt + 1, max_retries)` reduces to. -/
def convLoop (loads : List Char → Option JDict)
    (oracle : Nat → Except (List Char) (List Char)) (document : List Char)
    (mr : Nat) : Nat → Nat → Option JDict → Option JDict × Nat
  | 0, i, res => (res, i)
  | rem + 1, i, res =>
    match oracle i with
    | Except.error e =>
      if i = mr - 1 then (some (excFallback document e), i + 1)
      else convLoop loads oracle document mr rem (i + 1) res
    | Except.ok resp =>
      match loads (extractJson (pyStrip resp)) with
      | some r =>
        if hasKey r "main_content" then (some r, i + 1)
        else convLoop loads oracle document mr rem (i + 1) (some r)
      | none =>
        if i < mr - 1 then convLoop loads oracle document mr rem (i + 1) res
        else (some (parseFallback document), i + 1)

/-- `convert_to_json` from `backend/processors/json_convertor.py`. -/
def convert_to_json (loads : List Char → Option JDict) (dumps : JDict → List Char)
    (oracle : Nat → Except (List Char) (List Char)) (document : List Char)
    (mr : Nat) : ConvertResult :=
  let p := convLoop loads oracle document mr mr 0 none
  let result := p.1.getD (noneFallback document)
  { json := result,
    json_string := dumps result,
    fields_count := result.length,
    retries_used := if mr = 0 then 1 else min p.2 mr }

/-! ## processors/extractor.py : the validation pass

The claim about the extractor concerns only the validation loop
(extractor.py lines 108-118), which re-parses each previously extracted
field key from the validation response; it is embedded as a function of the
pre-validation mapping (an association list in dict insertion order) and the
validation response text. -/

/-- Match `key` case-insensitively at the start of the text, returning the
rest (the regexes use `re.IGNORECASE`). -/
def matchKeyCI : List Char → List Char → Option (List Char)
  | [], rest => some rest
  | _ :: _, [] => none
  | k :: ks, c :: cs =>
    if c.toLower = k.toLower then matchKeyCI ks cs else none

/-- Greedy nonempty run of non-`]` characters (the capture group). -/
def tryRun (l : List Char) : Option (List Char) :=
  let run := l.takeWhile (fun c => c ≠ ']')
  if run.isEmpty then none else some run

/-- The optional opening bracket then the capture group, bracket-consuming
branch first. -/
def tryBracketRun (l : List Char) : Option (List Char) :=
  match l with
  | '[' :: rest =>
    match tryRun rest with
    | some g => some g
    | none => tryRun l
  | _ => tryRun l

/-- Backtracking over the greedy whitespace run: try the offsets
`k, k-1, ..., 0` in that order. -/
def wsTry : Nat → List Char → Option (List Char)
  | 0, l => tryBracketRun l
  | k + 1, l =>
    match tryBracketRun (l.drop (k + 1)) with
    | some g => some g
    | none => wsTry k l

/-- The pattern tail after the key: one optional `:` or `-`
(consuming branch first), whitespace, optional bracket, capture group. -/
def tryTail (l : List Char) : Option (List Char) :=
  match l with
  | c :: rest =>
    if c = ':' || c = '-' then
      match wsTry (rest.takeWhile pyIsSpace).length rest with
      | some g => some g
      | none => wsTry (l.takeWhile pyIsSpace).length l
    else wsTry (l.takeWhile pyIsSpace).length l
  | [] => none

/-- Leftmost search of the per-key validation pattern at every start
position. -/
def keySearchGo (key : List Char) : Nat → List Char → Option (List Char)
  | 0, _ => none
  | f + 1, l =>
    match matchKeyCI key l with
    | some rest =>
      match tryTail rest with
      | some g => some g
      | none =>
        match l with
        | [] => none
        | _ :: cs => keySearchGo key f cs
    | none =>
      match l with
      | [] => none
      | _ :: cs => keySearchGo key f cs

/-- `re.search(rf'{key}[:\-]?\s*\[?([^\]]+)\]?', validated_content,
re.IGNORECASE)`, returning capture group 1 (extractor.py lines 112-113). -/
def keySearch (key content : List Char) : Option (List Char) :=
  keySearchGo key content.length content

/-- The replacement values parsed from a matched group (extractor.py lines
116-118): split on commas, strip whitespace then quotes, drop empties, cap
at 20. -/
def parseValues (g : List Char) : List (List Char) :=
  (((pySplitOn ',' g).map (fun v => pyStripChars ['"', '\''] (pyStrip v))).filter
    (fun v => !v.isEmpty)).take 20

/-- The validation re-parsing loop of `extract_information` (extractor.py
lines 110-118): for each field key, replace its values when the per-key
pattern matches the validation response, else leave the field unchanged. -/
def validate_extracted (extracted : List (String × List (List Char)))
    (validated : List Char) : List (String × List (List Char)) :=
  extracted.map (fun kv =>
    match keySearch kv.1.toList validated with
    | some g => (kv.1, parseValues g)
    | none => kv)

/-! ## Helper lemmas -/

/-- Every character of the whitespace-collapsing scanner's output is either
a space or a non-whitespace character of the input; in particular no newline
survives. -/
theorem wsToSpaceGo_no_nl (l : List Char) : ∀ b : Bool, '\n' ∉ wsToSpaceGo b l := by
  induction l with
  | nil => intro b h; simp [wsToSpaceGo] at h
  | cons c cs ih =>
    intro b h
    by_cases hc : pyIsSpace c
    · cases b with
      | true => simp only [wsToSpaceGo, hc, if_true] at h; exact ih true h
      | false =>
        simp only [wsToSpaceGo, hc, if_true, Bool.false_eq_true, if_false,
          List.mem_cons] at h
        rcases h with h | h
        · exact absurd h (by decide)
        · exact ih true h
    · simp only [wsToSpaceGo, hc, Bool.false_eq_true, if_false, List.mem_cons] at h
      rcases h with h | h
      · subst h; exact hc (by decide)
      · exact ih false h

/-- The newline-collapsing substitution is the identity on newline-free
text. -/
theorem collapseNlGo_eq_of_no_nl (l : List Char) (h : '\n' ∉ l) : collapseNlGo 0 l = l := by
  induction l with
  | nil => rfl
  | cons c cs ih =>
    have hc : ¬ c = '\n' := fun hh => h (hh ▸ List.mem_cons_self c cs)
    simp only [collapseNlGo, hc, if_false]
    rw [show emitNl 0 = [] from rfl, List.nil_append,
      ih (fun hm => h (List.mem_cons_of_mem c hm))]

/-- `pyStrip` only removes characters. -/
theorem mem_of_mem_pyStrip {a : Char} {l : List Char} (h : a ∈ pyStrip l) : a ∈ l := by
  unfold pyStrip at h
  rw [List.mem_reverse] at h
  have h2 := (List.dropWhile_sublist (l := (l.dropWhile pyIsSpace).reverse)
    (p := pyIsSpace)).mem h
  rw [List.mem_reverse] at h2
  exact (List.dropWhile_sublist (l := l) (p := pyIsSpace)).mem h2

/-! ## Claim theorems -/

/-- C10: for every input string the output of `clean_text` contains no
newline character: the first substitution replaces every whitespace run
(newlines included) by a single space, so the 3+-newline collapsing rule
never applies and the cleaned document is a single line. -/
theorem clean_text_no_newline (s : List Char) : '\n' ∉ clean_text s := by
  intro h
  unfold clean_text at h
  have hws : '\n' ∉ wsToSpace s := wsToSpaceGo_no_nl s false
  rw [show collapseNl (wsToSpace s) = wsToSpace s from
    collapseNlGo_eq_of_no_nl _ hws] at h
  exact hws (mem_of_mem_pyStrip h)

/-- C5 counterexample: `strip_markdown` is not idempotent: on `"- - a"` one
application removes only the first list marker (the scan resumes after the
matched span), a second application removes the next one. -/
theorem strip_markdown_not_idempotent :
    strip_markdown (strip_markdown "- - a".toList) ≠ strip_markdown "- - a".toList := by
  decide

/-- C5 amended: `strip_markdown("**bold** and *italic*")` equals
`"bold and italic"` (the idempotence part of the claim is false; only this
concrete example survives). -/
theorem strip_markdown_example :
    strip_markdown "**bold** and *italic*".toList = "bold and italic".toList := by
  decide

/-- C8 counterexample: for text no longer than `chunk_size`, `chunk_text`
returns the single chunk untrimmed: on `" a "` the chunk keeps its
surrounding whitespace, contradicting the claimed trimming. -/
theorem chunk_text_short_not_trimmed :
    chunk_text " a ".toList 10 2 0 = some [" a ".toList] ∧
    " a ".toList ≠ pyStrip " a ".toList := by
  constructor
  · decide
  · decide

/-- C8 amended: for every text with `len(text) ≤ chunk_size`, `chunk_text`
returns exactly one chunk, and that chunk equals the input text unchanged
(not trimmed). -/
theorem chunk_text_short_single_chunk (text : List Char) (cs ov fuel : Nat)
    (h : text.length ≤ cs) : chunk_text text cs ov fuel = some [text] := by
  unfold chunk_text
  rw [if_pos h]

/-- Witness for the amended C8 theorem at a concrete input. -/
theorem chunk_text_short_single_chunk_witness :
    "ab".toList.length ≤ 5 ∧ chunk_text "ab".toList 5 1 0 = some ["ab".toList] :=
  ⟨by decide, chunk_text_short_single_chunk "ab".toList 5 1 0 (by decide)⟩

/-- C4 (code bug): with `chunk_size = 10`, `overlap = 0` on
`"aaaaaaaaaabbbbbbbb.xcc"`, the second window `"bbbbbbbb.x"` has its last
`'.'` at window-relative index 8, after the window midpoint 5, so the spec
requires the chunk to shrink to `"bbbbbbbb."`; the code instead compares the
window-relative index 8 against the absolute threshold
`start + chunk_size // 2 = 15` and keeps the hard cutoff `"bbbbbbbb.x"`. -/
theorem chunk_text_midpoint_bug_eval :
    chunk_text "aaaaaaaaaabbbbbbbb.xcc".toList 10 0 22 =
      some ["aaaaaaaaaa".toList, "bbbbbbbb.x".toList, "cc".toList] := by
  decide

/-- C2: when the consistency-check response (call 1) is exactly
`"All major sections covered."`, `summarize_document` makes exactly 2
completion calls (no repair call) and `word_count` is the whitespace token
count of the full cleaned document. -/
theorem summarize_two_calls_word_count (oracle : Nat → List Char) (document : List Char)
    (h : oracle 1 = "All major sections covered.".toList) :
    (summarize_document oracle document).calls = 2 ∧
    (summarize_document oracle document).word_count =
      (pySplitWs (clean_text document)).length := by
  refine ⟨?_, rfl⟩
  simp only [summarize_document, h]
  decide

/-- Witness for the C2 theorem at a concrete oracle and document. -/
theorem summarize_two_calls_word_count_witness :
    (fun n => if n = 1 then "All major sections covered.".toList else "s".toList) 1 =
      "All major sections covered.".toList ∧
    ((summarize_document
        (fun n => if n = 1 then "All major sections covered.".toList else "s".toList)
        "hello  world".toList).calls = 2 ∧
      (summarize_document
        (fun n => if n = 1 then "All major sections covered.".toList else "s".toList)
        "hello  world".toList).word_count =
        (pySplitWs (clean_text "hello  world".toList)).length) :=
  ⟨rfl, summarize_two_calls_word_count _ "hello  world".toList rfl⟩

/-- C7: first-pass category parsing: a response whose lower-cased text
contains both "research paper" and "report" resolves to `research_paper`
(priority rule); a response containing none of the enum terms in any
variant resolves to `other`. -/
theorem classifier_category_parsing (s : List Char) :
    ((isSubstr "research paper".toList (pyLower s) = true ∧
      isSubstr "report".toList (pyLower s) = true) →
      parseCategory (pyLower s) = "research_paper") ∧
    ((∀ v ∈ "research paper" :: categories, isSubstr v.toList (pyLower s) = false) →
      parseCategory (pyLower s) = "other") := by
  constructor
  · rintro ⟨h1, -⟩
    unfold parseCategory
    rw [h1]
    simp
  · intro h
    have hrp : isSubstr "research paper".toList (pyLower s) = false :=
      h _ (List.mem_cons_self _ _)
    have hrp2 : isSubstr "research_paper".toList (pyLower s) = false :=
      h _ (List.mem_cons_of_mem _ (by simp [categories]))
    have hfind : categories.find? (fun cat => isSubstr cat.toList (pyLower s)) = none :=
      List.find?_eq_none.mpr (fun x hx => by
        rw [h x (List.mem_cons_of_mem _ hx)]; simp)
    unfold parseCategory
    rw [hrp, hrp2, hfind]
    simp

/-- Witness for the C7 theorem: both parts applied at concrete responses. -/
theorem classifier_category_parsing_witness :
    parseCategory (pyLower "This is a RESEARCH PAPER, not a report".toList) =
      "research_paper" ∧
    parseCategory (pyLower "qqq".toList) = "other" :=
  ⟨(classifier_category_parsing "This is a RESEARCH PAPER, not a report".toList).1
      (by constructor <;> decide),
    (classifier_category_parsing "qqq".toList).2 (by decide)⟩

/-- C6 counterexample: with first pass `"invoice low"` (low confidence, so
re-evaluation occurs) and re-evaluation response `"xyz"` matching no enum
term and no confidence word, the code retains `invoice`/`low`, whereas the
claimed re-application of the first-pass rule would give the defaults
`other`/`medium`. -/
theorem classify_reeval_default_counterexample :
    (classify_document
        (fun n => if n = 0 then "invoice low".toList
          else if n = 1 then "xyz".toList else [])
        "d".toList).category = "invoice" ∧
    (classify_document
        (fun n => if n = 0 then "invoice low".toList
          else if n = 1 then "xyz".toList else [])
        "d".toList).confidence = "low" ∧
    parseCategory (pyLower "xyz".toList) = "other" ∧
    parseConfidence (pyLower "xyz".toList) = "medium" := by
  refine ⟨by decide, by decide, by decide, by decide⟩

/-- C6 amended: when the first-pass confidence is medium or low, the final
category and confidence are obtained from the re-evaluation response by the
variant-first category scan and the "high"/"low" confidence scan, except
that on no match the first-pass value is retained (there is no defaulting
to `other`/`medium` in the re-evaluation branch). -/
theorem classify_reeval_update (oracle : Nat → List Char) (document : List Char)
    (h : parseConfidence (pyLower (oracle 0)) = "low" ∨
      parseConfidence (pyLower (oracle 0)) = "medium") :
    (classify_document oracle document).category =
      updateCategory (pyLower (oracle 1)) (parseCategory (pyLower (oracle 0))) ∧
    (classify_document oracle document).confidence =
      updateConfidence (pyLower (oracle 1)) (parseConfidence (pyLower (oracle 0))) := by
  simp only [classify_document]
  rw [if_pos h]
  exact ⟨rfl, rfl⟩

/-- Witness for the amended C6 theorem at a concrete oracle. -/
theorem classify_reeval_update_witness :
    (parseConfidence (pyLower ((fun n => if n = 0 then "invoice low".toList
        else if n = 1 then "contract high".toList else []) 0)) = "low" ∨
      parseConfidence (pyLower ((fun n => if n = 0 then "invoice low".toList
        else if n = 1 then "contract high".toList else []) 0)) = "medium") ∧
    ((classify_document (fun n => if n = 0 then "invoice low".toList
        else if n = 1 then "contract high".toList else []) "d".toList).category =
      updateCategory (pyLower "contract high".toList) (parseCategory (pyLower "invoice low".toList)) ∧
    (classify_document (fun n => if n = 0 then "invoice low".toList
        else if n = 1 then "contract high".toList else []) "d".toList).confidence =
      updateConfidence (pyLower "contract high".toList) (parseConfidence (pyLower "invoice low".toList))) :=
  ⟨Or.inl (by decide),
    classify_reeval_update
      (fun n => if n = 0 then "invoice low".toList
        else if n = 1 then "contract high".toList else [])
      "d".toList (Or.inl (by decide))⟩

/-- C9: in the extractor's validation pass, a field key whose per-key
pattern finds no match in the validation response keeps exactly its
pre-validation values, independently of what happens to other fields. -/
theorem extractor_field_independence (extracted : List (String × List (List Char)))
    (validated : List Char) (key : String)
    (h : keySearch key.toList validated = none) :
    List.lookup key (validate_extracted extracted validated) =
      List.lookup key extracted := by
  induction extracted with
  | nil => rfl
  | cons kv tl ih =>
    obtain ⟨k1, v1⟩ := kv
    simp only [validate_extracted, List.map_cons] at ih ⊢
    rcases hks : keySearch k1.toList validated with - | g
    · simp only [hks, List.lookup]
      cases hbk : key == k1
      · exact ih
      · rfl
    · simp only [hks, List.lookup]
      cases hbk : key == k1
      · exact ih
      · have hkeq : key = k1 := beq_iff_eq.mp hbk
        subst hkeq
        rw [h] at hks
        exact Option.noConfusion hks

/-- The new `end` computed by one `chunk_text` iteration exceeds `start` by
more than `chunk_size // 2`: without boundary snapping `end = start +
chunk_size`, and snapping only fires when the (window-relative) break point
exceeds `start + chunk_size // 2`. -/
theorem chunkStep_snd_lb (text : List Char) (cs : Nat) (start : Int)
    (h0 : 0 ≤ start) (hcs : 1 ≤ cs) :
    start + ((cs / 2 : Nat) : Int) + 1 ≤ (chunkStep text cs start).2 := by
  have hdiv : cs / 2 < cs := Nat.div_lt_self (by omega) (by omega)
  simp only [chunkStep]
  split
  · split
    · omega
    · omega
  · omega

/-- Fuel sufficiency for the `chunk_text` loop when
`overlap ≤ chunk_size // 2`: the loop state `start` advances by at least one
per iteration and never becomes negative, so `text.length` iterations
always suffice. -/
theorem chunkLoop_isSome (text : List Char) (cs ov : Nat) (hcs : 1 ≤ cs)
    (hov : ov ≤ cs / 2) :
    ∀ (fuel : Nat) (start : Int), 0 ≤ start →
      (text.length : Int) ≤ start + fuel →
      (chunkLoop text cs ov fuel start).isSome := by
  intro fuel
  induction fuel with
  | zero =>
    intro start h0 hle
    simp only [chunkLoop]
    rw [if_neg (by omega)]
    rfl
  | succ fuel ih =>
    intro start h0 hle
    simp only [chunkLoop]
    by_cases hlt : start < (text.length : Int)
    · rw [if_pos hlt]
      have hstep := chunkStep_snd_lb text cs start h0 hcs
      have hovI : (ov : Int) ≤ ((cs / 2 : Nat) : Int) := by exact_mod_cast hov
      have hrec := ih ((chunkStep text cs start).2 - (ov : Int)) (by omega) (by omega)
      simpa using hrec
    · rw [if_neg hlt]
      rfl

/-- C3 counterexample: with `chunk_size = 10` and `overlap = 9 < chunk_size`
on `"aaaaaaaa.aXXXX"`, boundary snapping sets `end = 9`, so
`start = end - overlap = 0` forever and the loop never terminates (the
fuel-indexed embedding returns a value for no amount of fuel). -/
theorem chunk_text_overlap_lt_nontermination :
    ¬ ∃ fuel, (chunk_text "aaaaaaaa.aXXXX".toList 10 9 fuel).isSome := by
  rintro ⟨fuel, hf⟩
  have hnone : ∀ f, chunkLoop "aaaaaaaa.aXXXX".toList 10 9 f 0 = none := by
    intro f
    induction f with
    | zero => decide
    | succ f ih =>
      show Option.map
          (fun rest => pyStrip (pyslice "aaaaaaaa.aXXXX".toList 0 9) :: rest)
          (chunkLoop "aaaaaaaa.aXXXX".toList 10 9 f 0) = none
      rw [ih]
      rfl
  unfold chunk_text at hf
  rw [if_neg (by decide)] at hf
  rw [hnone fuel] at hf
  exact Bool.noConfusion hf

/-- C3 amended: for every text, `chunk_size ≥ 1` and
`overlap ≤ chunk_size / 2`, `chunk_text` terminates (fuel `text.length`
suffices) and returns a non-empty list of chunks.  The claimed precondition
`overlap < chunk_size` is not enough, by the counterexample. -/
theorem chunk_text_terminates (text : List Char) (cs ov : Nat) (hcs : 1 ≤ cs)
    (hov : ov ≤ cs / 2) :
    ∃ l, chunk_text text cs ov text.length = some l ∧ l ≠ [] := by
  by_cases hlen : text.length ≤ cs
  · exact ⟨[text], by simp [chunk_text, hlen], by simp⟩
  · have hpos : 0 < (text.length : Int) := by
      have : cs < text.length := Nat.lt_of_not_le hlen
      omega
    have hfuel : (chunkLoop text cs ov text.length 0).isSome :=
      chunkLoop_isSome text cs ov hcs hov text.length 0 (by omega) (by omega)
    obtain ⟨m, hm⟩ : ∃ m, text.length = m + 1 :=
      ⟨text.length - 1, by omega⟩
    unfold chunk_text
    rw [if_neg hlen]
    rw [hm] at hfuel ⊢
    simp only [chunkLoop] at hfuel ⊢
    rw [if_pos hpos] at hfuel ⊢
    obtain ⟨l', hl'⟩ :
        ∃ l', chunkLoop text cs ov m ((chunkStep text cs 0).2 - (ov : Int)) = some l' := by
      rcases hrec : chunkLoop text cs ov m ((chunkStep text cs 0).2 - (ov : Int)) with - | l'
      · rw [hrec] at hfuel
        exact Bool.noConfusion hfuel
      · exact ⟨l', rfl⟩
    refine ⟨pyStrip (chunkStep text cs 0).1 :: l', ?_, by simp⟩
    rw [hl']
    rfl

/-- Witness for the amended C3 theorem at a concrete input. -/
theorem chunk_text_terminates_witness :
    1 ≤ 4 ∧ 2 ≤ 4 / 2 ∧
    ∃ l, chunk_text "abcdefgh".toList 4 2 "abcdefgh".toList.length = some l ∧ l ≠ [] :=
  ⟨by decide, by decide, chunk_text_terminates "abcdefgh".toList 4 2 (by decide) (by decide)⟩

/-- In the converter loop, when every completion response parses to no JSON,
every attempt takes the `JSONDecodeError` branch and the last one returns
the parse fallback after exactly `max_retries` attempts. -/
theorem convLoop_unparsable (loads : List Char → Option JDict)
    (oracle : Nat → Except (List Char) (List Char)) (document : List Char) (mr : Nat)
    (hall : ∀ i, ∃ r, oracle i = Except.ok r ∧ loads (extractJson (pyStrip r)) = none) :
    ∀ (rem i : Nat) (res : Option JDict), rem + i = mr → i < mr →
      convLoop loads oracle document mr rem i res = (some (parseFallback document), mr) := by
  intro rem
  induction rem with
  | zero => intro i res hsum hi; omega
  | succ rem ih =>
    intro i res hsum hi
    obtain ⟨r, hor, hl⟩ := hall i
    simp only [convLoop, hor, hl]
    by_cases hlt : i < mr - 1
    · rw [if_pos hlt]
      exact ih (i + 1) res (by omega) (by omega)
    · rw [if_neg hlt]
      have : i + 1 = mr := by omega
      rw [this]

/-- C1 counterexample: with `max_retries = 0` the loop body never runs, so
`retries_used` is reported as 1, violating `retries_used ≤ max_retries`. -/
theorem convert_to_json_mr_zero_counterexample :
    ¬ ((convert_to_json (fun _ => none) (fun _ => [])
        (fun _ => Except.ok "x".toList) "d".toList 0).retries_used ≤ 0) := by
  decide

/-- C1 amended: for `max_retries ≥ 1`, `retries_used ≤ max_retries` always;
and when every completion response is unparsable as JSON, after
`max_retries` attempts the returned json contains the key "error" and its
"main_content" is the first 1000 characters of the document. -/
theorem convert_to_json_retry_bound (loads : List Char → Option JDict)
    (dumps : JDict → List Char) (oracle : Nat → Except (List Char) (List Char))
    (document : List Char) (mr : Nat) (hmr : 1 ≤ mr) :
    (convert_to_json loads dumps oracle document mr).retries_used ≤ mr ∧
    ((∀ i, ∃ r, oracle i = Except.ok r ∧ loads (extractJson (pyStrip r)) = none) →
      hasKey (convert_to_json loads dumps oracle document mr).json "error" = true ∧
      List.lookup "main_content" (convert_to_json loads dumps oracle document mr).json =
        some (JVal.str (document.take 1000)) ∧
      (convert_to_json loads dumps oracle document mr).retries_used = mr) := by
  constructor
  · simp only [convert_to_json]
    rw [if_neg (by omega)]
    exact Nat.min_le_right _ _
  · intro hall
    have hloop := convLoop_unparsable loads oracle document mr hall mr 0 none
      (by omega) (by omega)
    simp only [convert_to_json, hloop]
    refine ⟨rfl, rfl, ?_⟩
    rw [if_neg (by omega)]
    exact Nat.min_self mr

/-- Witness for the amended C1 theorem: one retry with an oracle whose
response never parses. -/
theorem convert_to_json_retry_bound_witness :
    (convert_to_json (fun _ => none) (fun _ => [])
        (fun _ => Except.ok "x".toList) "d".toList 1).retries_used ≤ 1 ∧
    (hasKey (convert_to_json (fun _ => none) (fun _ => [])
        (fun _ => Except.ok "x".toList) "d".toList 1).json "error" = true ∧
      List.lookup "main_content" (convert_to_json (fun _ => none) (fun _ => [])
        (fun _ => Except.ok "x".toList) "d".toList 1).json =
        some (JVal.str ("d".toList.take 1000)) ∧
      (convert_to_json (fun _ => none) (fun _ => [])
        (fun _ => Except.ok "x".toList) "d".toList 1).retries_used = 1) :=
  ⟨(convert_to_json_retry_bound (fun _ => none) (fun _ => [])
      (fun _ => Except.ok "x".toList) "d".toList 1 (by decide)).1,
    (convert_to_json_retry_bound (fun _ => none) (fun _ => [])
      (fun _ => Except.ok "x".toList) "d".toList 1 (by decide)).2
      (fun i => ⟨"x".toList, rfl, rfl⟩)⟩

/-- Witness for the C9 theorem: the `emails` field is untouched while the
`names` field is replaced by the validation response. -/
theorem extractor_field_independence_witness :
    List.lookup "emails"
        (validate_extracted
          [("emails", ["a@b.com".toList]), ("names", ["Bob".toList])]
          "names: John Smith".toList) =
      List.lookup "emails" [("emails", ["a@b.com".toList]), ("names", ["Bob".toList])] :=
  extractor_field_independence _ "names: John Smith".toList "emails" (by decide)
